import Mathlib

/-!
Verification model of the QmkHidGear HID command-protocol layer, a shallow
embedding of QMK_Interface.py and QMKGear.py: outbound packet construction
(construct_command_packet, send_command), the write/read session state
machine of class QMKKeyboard, inbound decoding (parse_commands), the
early-return condition of the polling loops, and the LED fragmentation
recursion of set_RGB_LEDs.

Modelling conventions: machine bytes are Nat; a method that makes at most
one transport call receives the outcome of that call (success or
hid.HIDException) as an explicit argument; raised Python exceptions become
constructors of an explicit result type; the callbacks dict is modelled by
the predicate telling which command ids are registered.
-/

namespace QmkHidGear

/-- Command ids from the class Commands in QMK_Interface.py. -/
def Commands.Do_Nothing : Nat := 0

def Commands.KB_Set_Fronter : Nat := 1

def Commands.KB_Set_All_RGB_LEDs : Nat := 2

def Commands.KB_Set_RGB_LEDs : Nat := 3

def Commands.KB_Activity_Ping : Nat := 4

def Commands.PC_Raw_Debug_Msg : Nat := 120

def Commands.PC_Debug_Msg : Nat := 121

def Commands.PC_Switch_Fronter : Nat := 122

def Commands.PC_Notify_Layer_Change : Nat := 123

def Commands.PC_Activity_Ping : Nat := 124

/-- Values of the SystemMembers enum in QMK_Interface.py. -/
def SystemMembers.switched_out : Nat := 0

def SystemMembers.Fluttershy : Nat := 1

def SystemMembers.Hibiki : Nat := 2

def SystemMembers.Luna : Nat := 3

/-- Test whether a raw member id is a value of the SystemMembers enum; the
Python lookup SystemMembers(n) raises ValueError for every other id. -/
def SystemMembers.isMember (n : Nat) : Bool :=
  n == SystemMembers.switched_out || n == SystemMembers.Fluttershy ||
    n == SystemMembers.Hibiki || n == SystemMembers.Luna

/-- HSV color triple, the dataclass HSV in QMK_Interface.py. -/
structure HSV where
  Hue : Nat
  Sat : Nat
  Val : Nat
  deriving DecidableEq

/-- Little-endian unsigned integer reconstruction, as computed by the call
int.from_bytes with byteorder little and signed False (line 373). -/
def int_from_bytes_le : List Nat → Nat
  | [] => 0
  | b :: rest => b + 256 * int_from_bytes_le rest

/-- QMKKeyboard.construct_command_packet (lines 182-194): report id 0, the
command type byte, the payload length byte, then the payload bytes. -/
def construct_command_packet (command_type : Nat) (command_data : List Nat) : List Nat :=
  [0, command_type, command_data.length] ++ command_data

/-- Drop the report-id byte that construct_command_packet prepends. -/
def stripReportId (buf : List Nat) : List Nat :=
  buf.drop 1

/-- Packet built by QMKKeyboard.send_command (lines 196-211) before it
calls write: a None payload is replaced by the one-byte payload [0]. -/
def send_command_packet (command_type : Nat) (command_data : Option (List Nat)) : List Nat :=
  construct_command_packet command_type (command_data.getD [0])

/-- Session state of one QMKKeyboard instance: the fixed packet capacity
packet_size, whether the hid handle self.qmk is present (not None), and
the connected flag. -/
structure QMKKeyboard where
  packet_size : Nat
  qmkPresent : Bool
  connected : Bool
  deriving DecidableEq

/-- Outcome of the single transport call qmk.write makes, when reached. -/
inductive WriteOutcome
  | success (num_bytes_writen : Nat)
  | hidException
  deriving DecidableEq

/-- Result of QMKKeyboard.write: a byte count returned, or one of the two
raised exceptions DataPacketTooLarge and KeyboardDisconnected. -/
inductive WriteResult
  | wrote (num_bytes_writen : Nat)
  | dataPacketTooLarge
  | keyboardDisconnected
  deriving DecidableEq

/-- One step of QMKKeyboard.write: the updated session, the result, and
the byte list handed to the transport (none when qmk.write was never
called). -/
structure WriteStep where
  session : QMKKeyboard
  result : WriteResult
  written : Option (List Nat)
  deriving DecidableEq

/-- QMKKeyboard.write (lines 213-237). The guard on line 222 raises
DataPacketTooLarge when the packet exceeds packet_size, before anything
else happens; with a handle present the transport write is attempted and
an hid.HIDException clears connected and raises KeyboardDisconnected; with
no handle, connected is cleared and KeyboardDisconnected is raised without
a transport call. Note the branch on line 225 tests handle presence, not
the connected flag. -/
def QMKKeyboard.write (s : QMKKeyboard) (data_to_write : List Nat) (t : WriteOutcome) :
    WriteStep :=
  if s.packet_size < data_to_write.length then
    ⟨s, WriteResult.dataPacketTooLarge, none⟩
  else if s.qmkPresent then
    match t with
    | WriteOutcome.success n => ⟨s, WriteResult.wrote n, some data_to_write⟩
    | WriteOutcome.hidException =>
        ⟨{ s with connected := false }, WriteResult.keyboardDisconnected, some data_to_write⟩
  else
    ⟨{ s with connected := false }, WriteResult.keyboardDisconnected, none⟩

/-- QMKKeyboard.send_command (lines 196-211). -/
def QMKKeyboard.send_command (s : QMKKeyboard) (command_type : Nat)
    (command_data : Option (List Nat)) (t : WriteOutcome) : WriteStep :=
  QMKKeyboard.write s (send_command_packet command_type command_data) t

/-- QMKKeyboard.send_activity_ping (lines 274-281) sends KB_Activity_Ping
with a None payload. -/
def QMKKeyboard.send_activity_ping (s : QMKKeyboard) (t : WriteOutcome) : WriteStep :=
  QMKKeyboard.send_command s Commands.KB_Activity_Ping none t

/-- Outcome of the single transport call qmk.read makes, when reached. -/
inductive ReadOutcome
  | success (data : List Nat)
  | hidException
  deriving DecidableEq

/-- Result of QMKKeyboard.read: the byte list read (possibly empty), or
the raised KeyboardDisconnected exception. -/
inductive ReadResult
  | readData (data : List Nat)
  | keyboardDisconnected
  deriving DecidableEq

/-- One step of QMKKeyboard.read: updated session, result, and whether the
transport read was called. -/
structure ReadStep where
  session : QMKKeyboard
  result : ReadResult
  transportCalled : Bool
  deriving DecidableEq

/-- QMKKeyboard.read (lines 239-258), mirroring write: with a handle
present the transport read is attempted and an hid.HIDException clears
connected and raises KeyboardDisconnected; with no handle, connected is
cleared and KeyboardDisconnected is raised without a transport call. -/
def QMKKeyboard.read (s : QMKKeyboard) (r : ReadOutcome) : ReadStep :=
  if s.qmkPresent then
    match r with
    | ReadOutcome.success data => ⟨s, ReadResult.readData data, true⟩
    | ReadOutcome.hidException =>
        ⟨{ s with connected := false }, ReadResult.keyboardDisconnected, true⟩
  else
    ⟨{ s with connected := false }, ReadResult.keyboardDisconnected, false⟩

/-- Payload carried by a decoded command-info dict. -/
inductive EventData
  | intData (n : Nat)
  | noPayload
  deriving DecidableEq

/-- Result of the pure decoding part of QMKKeyboard.parse_commands on a
received byte list: the Python None return, a returned command-info dict,
or one of the raised exceptions (CorruptResponse, UnknownCommand, and the
ValueError escaping the SystemMembers enum lookup on line 354). -/
inductive ParseResult
  | returnedNone
  | event (command : Nat) (data : EventData)
  | corruptResponse
  | unknownCommand
  | valueError
  deriving DecidableEq

/-- Decoding result together with whether a registered callback was
invoked during it. -/
structure ParseOutcome where
  result : ParseResult
  callbackInvoked : Bool
  deriving DecidableEq

/-- Pure decoding part of QMKKeyboard.parse_commands (lines 327-394) on
the received byte list. An empty read returns None; fewer than 3 bytes
raises CorruptResponse; byte 0 is the command id, byte 1 the stated data
length, the rest the command data. Command 0 returns None; the two debug
commands 120 and 121 only log and fall through to the implicit None
return; command 122 logs SystemMembers of its first data byte (raising
ValueError for ids outside the enum, before the callback lookup), then
invokes a registered callback and returns the dict; command 123 truncates
the data to the stated length, rebuilds the little-endian integer, invokes
a registered callback and returns the dict; command 124 invokes a
registered callback and returns a dict with None data; anything else
raises UnknownCommand. The callbacks argument tells which command ids
have a registered callback. -/
def parse_received (received_data : List Nat) (callbacks : Nat → Bool) : ParseOutcome :=
  match received_data with
  | [] => ⟨ParseResult.returnedNone, false⟩
  | [_] => ⟨ParseResult.corruptResponse, false⟩
  | [_, _] => ⟨ParseResult.corruptResponse, false⟩
  | command_id :: data_length :: command_data =>
    if command_id = Commands.Do_Nothing then
      ⟨ParseResult.returnedNone, false⟩
    else if command_id = Commands.PC_Raw_Debug_Msg then
      ⟨ParseResult.returnedNone, false⟩
    else if command_id = Commands.PC_Debug_Msg then
      ⟨ParseResult.returnedNone, false⟩
    else if command_id = Commands.PC_Switch_Fronter then
      let new_fronter_qmk_id := command_data.headD 0
      if SystemMembers.isMember new_fronter_qmk_id then
        ⟨ParseResult.event command_id (EventData.intData new_fronter_qmk_id),
          callbacks command_id⟩
      else
        ⟨ParseResult.valueError, false⟩
    else if command_id = Commands.PC_Notify_Layer_Change then
      let layer_mask := int_from_bytes_le (command_data.take data_length)
      ⟨ParseResult.event command_id (EventData.intData layer_mask), callbacks command_id⟩
    else if command_id = Commands.PC_Activity_Ping then
      ⟨ParseResult.event command_id EventData.noPayload, callbacks command_id⟩
    else
      ⟨ParseResult.unknownCommand, false⟩

/-- QMKKeyboard.parse_commands (lines 310-394): performs a read, catching
a KeyboardDisconnected raised by it and turning it into the None return,
then decodes the received bytes. -/
def QMKKeyboard.parse_commands (s : QMKKeyboard) (callbacks : Nat → Bool)
    (r : ReadOutcome) : QMKKeyboard × ParseOutcome :=
  match QMKKeyboard.read s r with
  | ⟨s1, ReadResult.keyboardDisconnected, _⟩ => (s1, ⟨ParseResult.returnedNone, false⟩)
  | ⟨s1, ReadResult.readData received_data, _⟩ => (s1, parse_received received_data callbacks)

/-- Result of the header-extraction step of parse_commands. -/
inductive HeaderResult
  | noData
  | corrupt
  | header (command_id : Nat) (data_length : Nat) (command_data : List Nat)
  deriving DecidableEq

/-- Header-extraction step of parse_commands (lines 327-337): an empty
buffer is the None outcome, a non-empty buffer of fewer than 3 bytes
raises CorruptResponse, otherwise the command id is byte 0, the stated
data length byte 1, and the command data the remaining bytes. -/
def decode_header : List Nat → HeaderResult
  | [] => HeaderResult.noData
  | [_] => HeaderResult.corrupt
  | [_, _] => HeaderResult.corrupt
  | command_id :: data_length :: command_data =>
      HeaderResult.header command_id data_length command_data

/-- Python value shapes flowing into the comparison inside
poll_for_new_commands (QMKGear.py line 136 and QMK_Interface.py line 423):
the Optional Dict returned by parse_commands, and the int constant
Commands.PC_Switch_Fronter. -/
inductive PyValue
  | pynone
  | dict (command : Nat) (data : EventData)
  | int (n : Nat)
  deriving DecidableEq

/-- Python equality between these value shapes: values of different shapes
compare unequal (dict.__eq__ against an int returns NotImplemented on both
sides, so == falls back to identity and yields False; likewise None
against an int). -/
def pyEq : PyValue → PyValue → Bool
  | PyValue.pynone, PyValue.pynone => true
  | PyValue.int m, PyValue.int n => m == n
  | PyValue.dict c1 d1, PyValue.dict c2 d2 => c1 == c2 && d1 == d2
  | _, _ => false

/-- Loop-body test of poll_for_new_commands and poll_for_new_commands_fast:
the expression command_info == Commands.PC_Switch_Fronter. -/
def poll_early_return_condition (command_info : PyValue) : Bool :=
  pyEq command_info (PyValue.int Commands.PC_Switch_Fronter)

/-- The polling loop returns early iff some parse result, in service
order, satisfies the loop-body test. -/
def poll_for_new_commands_returns_early (results : List PyValue) : Bool :=
  results.any poll_early_return_condition

/-- View of a non-raising parse result as the Python value the poll loop
compares: None or a command-info dict. -/
def parse_result_to_py : ParseResult → Option PyValue
  | ParseResult.returnedNone => some PyValue.pynone
  | ParseResult.event c d => some (PyValue.dict c d)
  | _ => none

/-- Flat payload accumulated by the loop in set_RGB_LEDs (lines 294-305):
for the i-th LED of the fragment the four bytes
[first_led + i, Hue, Sat, Val]; modelled with an index accumulator that
advances by one per LED. -/
def ledCommandData : Nat → List HSV → List Nat
  | _, [] => []
  | first_led, hsv_data :: rest =>
      first_led :: hsv_data.Hue :: hsv_data.Sat :: hsv_data.Val ::
        ledCommandData (first_led + 1) rest

/-- Fragment structure of the recursion in set_RGB_LEDs (lines 283-308):
whenever more than leds_per_command LEDs remain, the first
leds_per_command of them form one fragment and the function recurses on
the rest with the start index advanced by leds_per_command; otherwise the
remaining LEDs form the final fragment. The fuel argument bounds the
recursion depth; none models the unbounded recursion the Python code
would enter when leds_per_command is 0. -/
def fragment_aux : Nat → Nat → List HSV → Nat → Option (List (Nat × List HSV))
  | 0, _, _, _ => none
  | fuel + 1, leds_per_command, led_values, first_led =>
      if leds_per_command < led_values.length then
        match fragment_aux fuel leds_per_command (led_values.drop leds_per_command)
            (first_led + leds_per_command) with
        | none => none
        | some rest => some ((first_led, led_values.take leds_per_command) :: rest)
      else
        some [(first_led, led_values)]

/-- Fragments produced by set_RGB_LEDs for a device with the given
packet_size, where leds_per_command = floor((packet_size - 3) / 4)
(line 292); the starting fuel exceeds the LED count, which is enough
whenever leds_per_command is positive. -/
def fragment_model (packet_size : Nat) (led_values : List HSV) (first_led : Nat) :
    Option (List (Nat × List HSV)) :=
  fragment_aux (led_values.length + 1) ((packet_size - 3) / 4) led_values first_led

/-- Sequence of KB_Set_RGB_LEDs command payloads sent by set_RGB_LEDs, in
send order. -/
def set_RGB_LEDs_model (packet_size : Nat) (led_values : List HSV) (first_led : Nat) :
    Option (List (List Nat)) :=
  (fragment_model packet_size led_values first_led).map
    (List.map fun f => ledCommandData f.1 f.2)

/-- Check that each fragment starts exactly where the previous fragment
ended, beginning at the given start index. -/
def contiguousFromB : Nat → List (Nat × List HSV) → Bool
  | _, [] => true
  | start, f :: rest => f.1 == start && contiguousFromB (start + f.2.length) rest

/-- Example list of 12 LED colors (the lily58 profile has led_num 12). -/
def leds12 : List HSV :=
  (List.range 12).map fun i => ⟨10 * i, 255, 255⟩

/-- Length of the flat LED payload: four bytes per LED. -/
theorem ledCommandData_length (led_values : List HSV) :
    ∀ first_led, (ledCommandData first_led led_values).length = 4 * led_values.length := by
  induction led_values with
  | nil => intro fl; rfl
  | cons h t ih =>
    intro fl
    simp only [ledCommandData, List.length_cons, ih (fl + 1)]
    omega

/-- Fuel-indexed specification of the set_RGB_LEDs recursion: with enough
fuel and a positive chunk size, fragmentation succeeds, every fragment
holds at most leds_per_command LEDs, fragment start indices are exactly
contiguous, and concatenating the fragments restores the input. -/
theorem fragment_aux_spec (fuel : Nat) :
    ∀ (leds_per : Nat) (led_values : List HSV) (first_led : Nat),
      led_values.length < fuel → 0 < leds_per →
      ∃ fs, fragment_aux fuel leds_per led_values first_led = some fs ∧
        (∀ f ∈ fs, f.2.length ≤ leds_per) ∧
        contiguousFromB first_led fs = true ∧
        (fs.map Prod.snd).flatten = led_values := by
  induction fuel with
  | zero =>
    intro lp lv fl hf _
    exact absurd hf (Nat.not_lt_zero _)
  | succ n ih =>
    intro lp lv fl hf hlp
    by_cases hlen : lp < lv.length
    · have hdrop : (lv.drop lp).length < n := by
        rw [List.length_drop]
        omega
      obtain ⟨fs, hfs, hbound, hcont, hjoin⟩ := ih lp (lv.drop lp) (fl + lp) hdrop hlp
      refine ⟨(fl, lv.take lp) :: fs, ?_, ?_, ?_, ?_⟩
      · simp [fragment_aux, hlen, hfs]
      · intro f hmem
        rcases List.mem_cons.mp hmem with h | h
        · subst h
          simp only [List.length_take]
          exact Nat.min_le_left _ _
        · exact hbound f h
      · have htake : (lv.take lp).length = lp := by
          rw [List.length_take]
          omega
        simp [contiguousFromB, htake, hcont]
      · simp only [List.map_cons, List.flatten_cons, hjoin]
        exact List.take_append_drop _ _
    · refine ⟨[(fl, lv)], ?_, ?_, ?_, ?_⟩
      · simp [fragment_aux, hlen]
      · intro f hmem
        rcases List.mem_cons.mp hmem with h | h
        · subst h
          exact Nat.le_of_not_lt hlen
        · simp at h
      · simp [contiguousFromB]
      · simp

/-- C1 counterexample: the round-trip law fails as stated. Encoding the
PC-to-KB command KB_Set_Fronter with payload [1] (3 + 1 is within the
capacity 32) and decoding the same bytes with the report-id byte stripped
raises UnknownCommand instead of recovering the command and payload; and
even for the recognized inbound command PC_Switch_Fronter with payload
[1, 2], the decoded dict carries only the first payload byte, not the
payload bytes exactly. -/
theorem C1_roundtrip_counterexample :
    (3 + 1 ≤ 32 ∧
      parse_received (stripReportId (construct_command_packet Commands.KB_Set_Fronter [1]))
          (fun _ => false) =
        ⟨ParseResult.unknownCommand, false⟩) ∧
    (3 + 2 ≤ 32 ∧
      parse_received (stripReportId (construct_command_packet Commands.PC_Switch_Fronter [1, 2]))
          (fun _ => false) =
        ⟨ParseResult.event Commands.PC_Switch_Fronter (EventData.intData 1), false⟩) := by
  decide

/-- C1 amended: for every command value and non-empty payload, the
header-extraction step of parse_commands applied to the bytes produced by
construct_command_packet with the report-id byte stripped recovers the
original command byte, the declared length, and the original payload
bytes exactly; the later per-command dispatch then transforms the payload
and recognizes only device-to-PC command bytes. -/
theorem C1_header_roundtrip (command_type : Nat) (command_data : List Nat)
    (h : command_data ≠ []) :
    decode_header (stripReportId (construct_command_packet command_type command_data)) =
      HeaderResult.header command_type command_data.length command_data := by
  cases command_data with
  | nil => exact absurd rfl h
  | cons a rest => rfl

/-- C1 witness: the amended round trip at command KB_Set_Fronter with
payload [1]. -/
theorem C1_header_roundtrip_witness :
    decode_header (stripReportId (construct_command_packet Commands.KB_Set_Fronter [1])) =
      HeaderResult.header Commands.KB_Set_Fronter 1 [1] :=
  C1_header_roundtrip Commands.KB_Set_Fronter [1] (by decide)

/-- C2: the early-return test of the polling loops compares the
Optional Dict returned by parse_commands against the int constant
Commands.PC_Switch_Fronter with the Python == operator, which is False
for every dict and for None; hence even the parse result produced by a
genuine SwitchFronterRequest packet, such as [122, 1, 1], never makes the
loop return early. -/
theorem C2_poll_short_circuit_never_fires :
    (∀ c d, poll_early_return_condition (PyValue.dict c d) = false) ∧
    poll_early_return_condition PyValue.pynone = false ∧
    parse_result_to_py
        (parse_received [Commands.PC_Switch_Fronter, 1, 1] (fun _ => false)).result =
      some (PyValue.dict Commands.PC_Switch_Fronter (EventData.intData 1)) ∧
    poll_for_new_commands_returns_early
        [PyValue.dict Commands.PC_Switch_Fronter (EventData.intData 1), PyValue.pynone] =
      false :=
  ⟨fun _ _ => rfl, rfl, by decide, by decide⟩

/-- C3 counterexample: after a prior transport failure the session has
connected = false but still holds its handle, and a subsequent write with
a working transport does call the transport write (returning its byte
count) instead of failing immediately with KeyboardDisconnected; the
branch in write tests handle presence, not the connected flag. -/
theorem C3_disconnected_flag_counterexample :
    (QMKKeyboard.write ⟨32, true, true⟩ [0, 1, 1, 1] WriteOutcome.hidException).session =
      (⟨32, true, false⟩ : QMKKeyboard) ∧
    (⟨32, true, false⟩ : QMKKeyboard).connected = false ∧
    (QMKKeyboard.write ⟨32, true, false⟩ [0, 1, 1, 1] (WriteOutcome.success 4)).written =
      some [0, 1, 1, 1] ∧
    (QMKKeyboard.write ⟨32, true, false⟩ [0, 1, 1, 1] (WriteOutcome.success 4)).result ≠
      WriteResult.keyboardDisconnected := by
  decide

/-- C3 amended: writing while the session holds no transport handle (the
attribute qmk is None, as in a never-opened session) fails immediately
with KeyboardDisconnected and performs no transport call, for any packet
within the size bound; the connected flag itself is not consulted. -/
theorem C3_write_without_handle (s : QMKKeyboard) (data : List Nat) (t : WriteOutcome)
    (hq : s.qmkPresent = false) (hlen : data.length ≤ s.packet_size) :
    QMKKeyboard.write s data t =
      ⟨{ s with connected := false }, WriteResult.keyboardDisconnected, none⟩ := by
  simp [QMKKeyboard.write, hq, Nat.not_lt.mpr hlen]

/-- C3 witness: the amended statement at a fresh session with no handle. -/
theorem C3_write_without_handle_witness :
    QMKKeyboard.write ⟨32, false, false⟩ [0, 1, 1, 1] (WriteOutcome.success 4) =
      ⟨⟨32, false, false⟩, WriteResult.keyboardDisconnected, none⟩ :=
  C3_write_without_handle ⟨32, false, false⟩ [0, 1, 1, 1] (WriteOutcome.success 4) rfl
    (by decide)

/-- C4: the send path raises DataPacketTooLarge exactly when
3 + len(payload) exceeds the packet capacity, and in that case the
session is unchanged and nothing is handed to the transport; the bound
is checked before any write and the packet is never truncated. -/
theorem C4_send_size_guard (s : QMKKeyboard) (command_type : Nat) (payload : List Nat)
    (t : WriteOutcome) :
    ((QMKKeyboard.send_command s command_type (some payload) t).result =
        WriteResult.dataPacketTooLarge ↔ s.packet_size < 3 + payload.length) ∧
    (s.packet_size < 3 + payload.length →
      QMKKeyboard.send_command s command_type (some payload) t =
        ⟨s, WriteResult.dataPacketTooLarge, none⟩) := by
  have hlen : (send_command_packet command_type (some payload)).length = 3 + payload.length := by
    simp [send_command_packet, construct_command_packet]
    omega
  constructor
  · by_cases hbig : s.packet_size < 3 + payload.length
    · simp [QMKKeyboard.send_command, QMKKeyboard.write, hlen, hbig]
    · cases hq : s.qmkPresent <;> cases t <;>
        simp [QMKKeyboard.send_command, QMKKeyboard.write, hlen, hbig, hq]
  · intro hbig
    simp [QMKKeyboard.send_command, QMKKeyboard.write, hlen, hbig]

/-- C4 witness: a 30-byte payload on a 32-byte device is rejected as too
large. -/
theorem C4_send_size_guard_witness :
    (QMKKeyboard.send_command ⟨32, true, true⟩ Commands.KB_Set_RGB_LEDs
        (some (List.replicate 30 0)) (WriteOutcome.success 0)).result =
      WriteResult.dataPacketTooLarge :=
  (C4_send_size_guard ⟨32, true, true⟩ Commands.KB_Set_RGB_LEDs (List.replicate 30 0)
      (WriteOutcome.success 0)).1.mpr (by simp)

/-- C5: for every LED color list and starting index on a 32-byte device,
set_RGB_LEDs fragments the list into chunks of at most
floor((32 - 3) / 4) = 7 LEDs; each fragment starts exactly where the
previous one ended (so fragment k starts at the index of fragment 0 plus
the LED counts of all preceding fragments); concatenating the fragments
restores the input exactly; every sent payload consists of whole 4-byte
LED tuples, so no tuple is split across packets; and the 12-LED example
yields exactly the two fragments starting at 0 and at 7. -/
theorem C5_led_fragmentation (led_values : List HSV) (first_led : Nat) :
    (∃ fs, fragment_model 32 led_values first_led = some fs ∧
      (∀ f ∈ fs, f.2.length ≤ 7) ∧
      contiguousFromB first_led fs = true ∧
      (fs.map Prod.snd).flatten = led_values ∧
      (∀ f ∈ fs, (ledCommandData f.1 f.2).length = 4 * f.2.length) ∧
      set_RGB_LEDs_model 32 led_values first_led =
        some (fs.map fun f => ledCommandData f.1 f.2)) ∧
    fragment_model 32 leds12 0 = some [(0, leds12.take 7), (7, leds12.drop 7)] := by
  constructor
  · obtain ⟨fs, hfs, hbound, hcont, hflat⟩ :=
      fragment_aux_spec (led_values.length + 1) 7 led_values first_led
        (Nat.lt_succ_self _) (by decide)
    have hmodel : fragment_model 32 led_values first_led = some fs := hfs
    exact ⟨fs, hmodel, hbound, hcont, hflat,
      fun f _ => ledCommandData_length f.2 f.1,
      by simp [set_RGB_LEDs_model, hmodel]⟩
  · decide

/-- C5 witness: the universal part applied to the 12-LED example with
starting index 3. -/
theorem C5_led_fragmentation_witness :
    ∃ fs, fragment_model 32 leds12 3 = some fs ∧
      (∀ f ∈ fs, f.2.length ≤ 7) ∧
      contiguousFromB 3 fs = true ∧
      (fs.map Prod.snd).flatten = leds12 ∧
      (∀ f ∈ fs, (ledCommandData f.1 f.2).length = 4 * f.2.length) ∧
      set_RGB_LEDs_model 32 leds12 3 = some (fs.map fun f => ledCommandData f.1 f.2) :=
  (C5_led_fragmentation leds12 3).1

/-- C6: an inbound packet with command byte 123 (PC_Notify_Layer_Change)
and stated data length n between 1 and 4 decodes by truncating the
payload to its first n bytes and reading them as an unsigned
little-endian integer of no fixed width; in particular [0x01, 0x02] with
length 2 yields 0x0201 and [0xFF] with length 1 yields 255. -/
theorem C6_layer_change_decoding (data_length : Nat) (payload : List Nat)
    (callbacks : Nat → Bool) (h1 : 1 ≤ data_length) (h2 : data_length ≤ 4)
    (h3 : payload ≠ []) :
    parse_received (Commands.PC_Notify_Layer_Change :: data_length :: payload) callbacks =
      ⟨ParseResult.event Commands.PC_Notify_Layer_Change
          (EventData.intData (int_from_bytes_le (payload.take data_length))),
        callbacks Commands.PC_Notify_Layer_Change⟩ ∧
    int_from_bytes_le [1, 2] = 0x0201 ∧ int_from_bytes_le [255] = 255 := by
  refine ⟨?_, by decide, by decide⟩
  cases payload with
  | nil => exact absurd rfl h3
  | cons b bs =>
    simp [parse_received, Commands.PC_Notify_Layer_Change, Commands.Do_Nothing,
      Commands.PC_Raw_Debug_Msg, Commands.PC_Debug_Msg, Commands.PC_Switch_Fronter,
      Commands.PC_Activity_Ping]

/-- C6 witness: the two concrete decodings named by the claim. -/
theorem C6_layer_change_decoding_witness :
    parse_received [123, 2, 1, 2] (fun _ => false) =
      ⟨ParseResult.event 123 (EventData.intData 513), false⟩ ∧
    parse_received [123, 1, 255] (fun _ => false) =
      ⟨ParseResult.event 123 (EventData.intData 255), false⟩ :=
  ⟨(C6_layer_change_decoding 2 [1, 2] (fun _ => false) (by decide) (by decide) (by decide)).1,
    (C6_layer_change_decoding 1 [255] (fun _ => false) (by decide) (by decide) (by decide)).1⟩

/-- C7: with a handle present, parse_commands on a successful 0-length
read returns the non-error None outcome, and on any non-empty read of
fewer than 3 bytes raises CorruptResponse; in both cases the session,
including its connected flag, is unchanged. -/
theorem C7_parse_length_guards (s : QMKKeyboard) (callbacks : Nat → Bool) (d : List Nat)
    (hq : s.qmkPresent = true) :
    QMKKeyboard.parse_commands s callbacks (ReadOutcome.success []) =
      (s, ⟨ParseResult.returnedNone, false⟩) ∧
    (d ≠ [] → d.length < 3 →
      QMKKeyboard.parse_commands s callbacks (ReadOutcome.success d) =
        (s, ⟨ParseResult.corruptResponse, false⟩)) := by
  constructor
  · simp [QMKKeyboard.parse_commands, QMKKeyboard.read, hq, parse_received]
  · intro hne hlt
    cases d with
    | nil => exact absurd rfl hne
    | cons a d1 =>
      cases d1 with
      | nil => simp [QMKKeyboard.parse_commands, QMKKeyboard.read, hq, parse_received]
      | cons b d2 =>
        cases d2 with
        | nil => simp [QMKKeyboard.parse_commands, QMKKeyboard.read, hq, parse_received]
        | cons c d3 =>
          simp only [List.length_cons] at hlt
          omega

/-- C7 witness: the guards at a concrete connected session, with the
0-length read and a 2-byte read. -/
theorem C7_parse_length_guards_witness :
    QMKKeyboard.parse_commands ⟨32, true, true⟩ (fun _ => false) (ReadOutcome.success []) =
      (⟨32, true, true⟩, ⟨ParseResult.returnedNone, false⟩) ∧
    QMKKeyboard.parse_commands ⟨32, true, true⟩ (fun _ => false) (ReadOutcome.success [5, 6]) =
      (⟨32, true, true⟩, ⟨ParseResult.corruptResponse, false⟩) :=
  ⟨(C7_parse_length_guards ⟨32, true, true⟩ (fun _ => false) [5, 6] rfl).1,
    (C7_parse_length_guards ⟨32, true, true⟩ (fun _ => false) [5, 6] rfl).2 (by decide)
      (by decide)⟩

/-- C8: an hid.HIDException from the transport during write or read is
re-raised as KeyboardDisconnected and the connected flag is cleared in
the same step, with nothing else of the session changed; a session whose
connected flag was true thus transitions to false exactly once per
failure, on both the send and the receive path. -/
theorem C8_transport_failure_disconnects (s : QMKKeyboard) (data : List Nat)
    (hq : s.qmkPresent = true) (hlen : data.length ≤ s.packet_size) :
    QMKKeyboard.write s data WriteOutcome.hidException =
      ⟨{ s with connected := false }, WriteResult.keyboardDisconnected, some data⟩ ∧
    QMKKeyboard.read s ReadOutcome.hidException =
      ⟨{ s with connected := false }, ReadResult.keyboardDisconnected, true⟩ := by
  constructor
  · simp [QMKKeyboard.write, hq, Nat.not_lt.mpr hlen]
  · simp [QMKKeyboard.read, hq]

/-- C8 witness: both failure paths at a concrete connected session. -/
theorem C8_transport_failure_disconnects_witness :
    QMKKeyboard.write ⟨32, true, true⟩ [0, 4, 1, 0] WriteOutcome.hidException =
      ⟨⟨32, true, false⟩, WriteResult.keyboardDisconnected, some [0, 4, 1, 0]⟩ ∧
    QMKKeyboard.read ⟨32, true, true⟩ ReadOutcome.hidException =
      ⟨⟨32, true, false⟩, ReadResult.keyboardDisconnected, true⟩ :=
  C8_transport_failure_disconnects ⟨32, true, true⟩ [0, 4, 1, 0] rfl (by decide)

/-- C9: send_command substitutes the one-byte payload [0] for a None
payload, so every no-payload outbound command is framed with data length
1 and a single zero data byte, never with data length 0; in particular
send_activity_ping writes the packet [0, 4, 1, 0]. -/
theorem C9_none_payload_substitution (command_type : Nat) (s : QMKKeyboard)
    (t : WriteOutcome) :
    send_command_packet command_type none = [0, command_type, 1, 0] ∧
    QMKKeyboard.send_activity_ping s t =
      QMKKeyboard.write s [0, Commands.KB_Activity_Ping, 1, 0] t ∧
    Commands.KB_Activity_Ping = 4 :=
  ⟨rfl, rfl, rfl⟩

/-- C10: decoding a SwitchFronterRequest packet whose member id byte is
one of the enum values 0-3 yields the command-info dict (invoking a
registered callback), while any other member id byte makes the
SystemMembers lookup in the log statement raise ValueError before the
callback lookup, so no callback runs. -/
theorem C10_switch_fronter_enum_guard (member_id data_length : Nat) (rest : List Nat)
    (callbacks : Nat → Bool) :
    (member_id ≤ 3 →
      parse_received (Commands.PC_Switch_Fronter :: data_length :: member_id :: rest)
          callbacks =
        ⟨ParseResult.event Commands.PC_Switch_Fronter (EventData.intData member_id),
          callbacks Commands.PC_Switch_Fronter⟩) ∧
    (3 < member_id →
      parse_received (Commands.PC_Switch_Fronter :: data_length :: member_id :: rest)
          callbacks =
        ⟨ParseResult.valueError, false⟩) := by
  constructor
  · intro h
    have hm : SystemMembers.isMember member_id = true := by
      interval_cases member_id <;> decide
    simp [parse_received, Commands.PC_Switch_Fronter, Commands.Do_Nothing,
      Commands.PC_Raw_Debug_Msg, Commands.PC_Debug_Msg, hm]
  · intro h
    have hm : SystemMembers.isMember member_id = false := by
      simp only [SystemMembers.isMember, SystemMembers.switched_out, SystemMembers.Fluttershy,
        SystemMembers.Hibiki, SystemMembers.Luna, Bool.or_eq_false_iff, beq_eq_false_iff_ne,
        ne_eq]
      omega
    simp [parse_received, Commands.PC_Switch_Fronter, Commands.Do_Nothing,
      Commands.PC_Raw_Debug_Msg, Commands.PC_Debug_Msg, hm]

/-- C10 witness: with a callback registered for command 122, member id 2
decodes and invokes it, while member id 4 raises before the callback. -/
theorem C10_switch_fronter_enum_guard_witness :
    parse_received [122, 1, 2] (fun c => c == 122) =
      ⟨ParseResult.event 122 (EventData.intData 2), true⟩ ∧
    parse_received [122, 1, 4] (fun c => c == 122) =
      ⟨ParseResult.valueError, false⟩ :=
  ⟨(C10_switch_fronter_enum_guard 2 1 [] (fun c => c == 122)).1 (by decide),
    (C10_switch_fronter_enum_guard 4 1 [] (fun c => c == 122)).2 (by decide)⟩

end QmkHidGear
